import Mathlib

/-
Verification of the Workload Identity Federation (WIF) provisioning logic in
cmd/ocm/gcp of the ocm-cli repository: create-wif-config.go (pool, provider and
service-account reconciliation) and update-wif-config.go (lookup + update).

The cloud and backend clients are modelled as records of result functions: each
record field gives, for a concrete request, the response/error the live API
would return.  Every repository function is translated into a Lean function
that returns its Go result together with the ordered trace of cloud/backend
calls it issued, so that claims about "which calls are made" become statements
about these traces.
-/

namespace Spec2Proof

/-! ## String containment (Go strings.Contains) -/

/-- Char-list version of Go strings.HasPrefix: `sub` is a leading segment of `s`. -/
def isLeadingSegment : List Char → List Char → Bool
  | [], _ => true
  | _ :: _, [] => false
  | a :: as, b :: bs => a == b && isLeadingSegment as bs

/-- Auxiliary scan for `stringsContains`: does `sub` occur in the char list? -/
def containsAux (sub : List Char) : List Char → Bool
  | [] => sub.isEmpty
  | c :: rest => isLeadingSegment sub (c :: rest) || containsAux sub rest

/-- Go `strings.Contains s sub`: `sub` occurs as a contiguous substring of `s`. -/
def stringsContains (s sub : String) : Bool :=
  containsAux sub.data s.data

/-! ## Go error values

`GoErr` models the error values distinguished by the Go code:
`googleApi` is a `*googleapi.Error` (HTTP error with `Code` and `Message`),
`apiError` is a `*apierror.APIError` carrying a gRPC status code, and
`otherErr` is any other non-nil `error`. -/

inductive GoErr where
  | googleApi (Code : Nat) (Message : String)
  | apiError (grpcCode : Nat)
  | otherErr (Message : String)
deriving Repr, DecidableEq

/-- gRPC `codes.AlreadyExists`. -/
def codesAlreadyExists : Nat := 6

/-! ## Constants from create-wif-config.go -/

def poolDescription : String := "Created by the OCM CLI"

def openShiftAudience : String := "openshift"

def impersonatorServiceAccount : String :=
  "projects/sda-ccs-3/serviceAccounts/osd-impersonator@sda-ccs-3.iam.gserviceaccount.com"

/-- The message substring that marks a 404 as a true "not found" response. -/
def entityNotFoundMsg : String := "Requested entity was not found"

/-! ## Data model

The `pkg/models` types are not under src/; their fields are modelled from the
spec (§3) and from how create-wif-config.go reads them. -/

/-- Modelled from the spec: `RoleRef {id, predefined}` of pkg/models, as read by
createServiceAccounts (`role.Id`, `role.Predefined`). -/
structure Role where
  Id : String
  Predefined : Bool
deriving Repr, DecidableEq

/-- Modelled from the spec: `ServiceAccountSpec {id, roles, accessMethod}` of
pkg/models, as read by createServiceAccounts. -/
structure ServiceAccount where
  Id : String
  AccessMethod : String
  Roles : List Role
deriving Repr, DecidableEq

/-- Modelled from the spec: the generated getter `GetId` returns the `Id` field. -/
def ServiceAccount.GetId (sa : ServiceAccount) : String := sa.Id

/-- `models.WifConfigInput` (desired-state input: display name and project). -/
structure WifConfigInput where
  DisplayName : String
  ProjectId : String
deriving Repr, DecidableEq

/-- Modelled from the spec: the resolved pool data held in the WIF config status
(`PoolId`, `ProjectId`, `Jwks`, `IssuerUrl`, `IdentityProviderId`). -/
structure WorkloadIdentityPoolData where
  PoolId : String
  ProjectId : String
  Jwks : String
  IssuerUrl : String
  IdentityProviderId : String
deriving Repr, DecidableEq

/-- Modelled from the spec: the status part of a WIF config record (resolved
pool data and the service-account list). -/
structure WifConfigStatus where
  WorkloadIdentityPoolData : WorkloadIdentityPoolData
  ServiceAccounts : List ServiceAccount
deriving Repr, DecidableEq

/-- `models.WifConfigOutput` (src/unnamed/part_000): spec plus status.  The
`Metadata` pointer field is not read by the provisioning code and is omitted. -/
structure WifConfigOutput where
  Spec : WifConfigInput
  Status : WifConfigStatus
deriving Repr, DecidableEq

/-- Modelled from the spec: `gcp.WorkloadIdentityPoolSpec` of pkg/gcp, with the
fields assigned in createWorkloadIdentityConfigurationCmd. -/
structure WorkloadIdentityPoolSpec where
  PoolName : String
  ProjectId : String
  Jwks : String
  IssuerUrl : String
  PoolIdentityProviderId : String
deriving Repr, DecidableEq

/-! ## Cloud request bodies (iam/v1 and adminpb) -/

/-- `iamv1.WorkloadIdentityPool` body as built by createWorkloadIdentityPool. -/
structure WorkloadIdentityPool where
  Name : String
  DisplayName : String
  Description : String
  State : String
  Disabled : Bool
deriving Repr, DecidableEq

/-- `iam.Oidc` body (allowed audiences, issuer URI, JWKS document). -/
structure Oidc where
  AllowedAudiences : List String
  IssuerUri : String
  JwksJson : String
deriving Repr, DecidableEq

/-- `iam.WorkloadIdentityPoolProvider` body as built by
createWorkloadIdentityProvider. -/
structure WorkloadIdentityPoolProvider where
  Name : String
  DisplayName : String
  Description : String
  State : String
  Disabled : Bool
  Oidc : Oidc
  AttributeMapping : List (String × String)
deriving Repr, DecidableEq

/-- The service-account part of `adminpb.CreateServiceAccountRequest`. -/
structure ServiceAccountBody where
  DisplayName : String
  Description : String
deriving Repr, DecidableEq

/-- `adminpb.CreateServiceAccountRequest` as built by CreateServiceAccount. -/
structure CreateServiceAccountRequest where
  Name : String
  AccountId : String
  ServiceAccount : ServiceAccountBody
deriving Repr, DecidableEq

/-! ## Call traces -/

/-- One cloud IAM API call, with the arguments the repository code passes. -/
inductive CloudCall where
  | getPool (resource : String)
  | createPool (parent : String) (poolId : String) (pool : WorkloadIdentityPool)
  | undeletePool (resource : String)
  | getProvider (resource : String)
  | createProvider (parent : String) (providerId : String)
      (provider : WorkloadIdentityPoolProvider)
  | createServiceAccount (request : CreateServiceAccountRequest)
  | bindRole (saId : String) (projectId : String) (roleResource : String)
  | attachImpersonator (saId : String) (projectId : String) (impersonator : String)
  | attachWorkloadIdentityPool (sa : ServiceAccount) (poolId : String) (projectId : String)
deriving Repr, DecidableEq

/-- One backend (OCM API) call. -/
inductive OcmCall where
  | createWifConfig (input : WifConfigInput)
  | listWifConfigs (query : String) (page : Nat) (size : Nat)
  | updateWifConfig (id : String) (templates : List String)
deriving Repr, DecidableEq

/-- A cloud call that mutates IAM state (everything except the two reads). -/
def isMutationCall : CloudCall → Bool
  | .getPool _ => false
  | .getProvider _ => false
  | _ => true

/-- A call belonging to the workload-identity-pool API. -/
def isPoolApiCall : CloudCall → Bool
  | .getPool _ => true
  | .createPool _ _ _ => true
  | .undeletePool _ => true
  | _ => false

/-- A call belonging to the provider API. -/
def isProviderApiCall : CloudCall → Bool
  | .getProvider _ => true
  | .createProvider _ _ _ => true
  | _ => false

/-- A call belonging to the service-account APIs. -/
def isServiceAccountApiCall : CloudCall → Bool
  | .createServiceAccount _ => true
  | .bindRole _ _ _ => true
  | .attachImpersonator _ _ _ => true
  | .attachWorkloadIdentityPool _ _ _ => true
  | _ => false

/-- A role-bind or access-method-attach call (pass 2 of createServiceAccounts). -/
def isBindOrAttach : CloudCall → Bool
  | .bindRole _ _ _ => true
  | .attachImpersonator _ _ _ => true
  | .attachWorkloadIdentityPool _ _ _ => true
  | _ => false

/-! ## Client environments -/

/-- The cloud IAM client (`gcp.GcpClient`, not under src/): each field returns
the result the live API would give for that request.  `GetWorkloadIdentityPool`
returns the Go pair (response, error); `GetWorkloadIdentityProvider`'s response
is discarded by the caller, so only its error is modelled. -/
structure GcpClient where
  GetWorkloadIdentityPool : String → Option WorkloadIdentityPool × Option GoErr
  CreateWorkloadIdentityPool : String → String → WorkloadIdentityPool → Option GoErr
  UndeleteWorkloadIdentityPool : String → Option GoErr
  GetWorkloadIdentityProvider : String → Option GoErr
  CreateWorkloadIdentityProvider : String → String → WorkloadIdentityPoolProvider → Option GoErr
  CreateServiceAccount : CreateServiceAccountRequest → Option GoErr
  BindRole : String → String → String → Option GoErr
  AttachImpersonator : String → String → String → Option GoErr
  AttachWorkloadIdentityPool : ServiceAccount → String → String → Option GoErr

/-- The backend client (`alphaocm.OcmClient`, not under src/): result of
`CreateWifConfig`. -/
structure OcmClient where
  CreateWifConfig : WifConfigInput → Except GoErr WifConfigOutput

/-! ## Function results -/

/-- How one repository function ends: normal return, returned error, or panic. -/
inductive Outcome where
  | ok
  | goError (e : GoErr)
  | panicked (e : GoErr)
deriving Repr, DecidableEq

/-- Result of one reconciliation step: its outcome and the cloud calls issued. -/
structure StepResult where
  outcome : Outcome
  calls : List CloudCall
deriving Repr, DecidableEq

/-- Result of createServiceAccounts: outcome, cloud calls, and the warnings
printed for unsupported roles/access methods. -/
structure SAResult where
  outcome : Outcome
  calls : List CloudCall
  warnings : List String
deriving Repr, DecidableEq

/-! ## Resource names (the fmt.Sprintf strings) -/

/-- `projects/<project>/locations/global`. -/
def parentResourceForPool (project : String) : String :=
  "projects/" ++ project ++ "/locations/global"

/-- `projects/<project>/locations/global/workloadIdentityPools/<name>`. -/
def poolResource (project name : String) : String :=
  parentResourceForPool project ++ "/workloadIdentityPools/" ++ name

/-- `projects/<p>/locations/global/workloadIdentityPools/<pool>/providers/<pool>`. -/
def providerResource (spec : WorkloadIdentityPoolSpec) : String :=
  "projects/" ++ spec.ProjectId ++ "/locations/global/workloadIdentityPools/" ++
    spec.PoolName ++ "/providers/" ++ spec.PoolName

/-- Parent resource passed to the provider create call. -/
def providerParentResource (spec : WorkloadIdentityPoolSpec) : String :=
  "projects/" ++ spec.ProjectId ++ "/locations/global/workloadIdentityPools/" ++ spec.PoolName

/-! ## The probe classification (create-wif-config.go lines 167 and 206)

Both reconcilers treat a read error as "not found" exactly when it is a
`*googleapi.Error` with `Code == 404` whose `Message` contains the substring
`"Requested entity was not found"`. -/

def isNotFoundErr : GoErr → Bool
  | .googleApi code msg => code == 404 && stringsContains msg entityNotFoundMsg
  | _ => false

/-! ## Pool reconciler (createWorkloadIdentityPool) -/

def createWorkloadIdentityPool (client : GcpClient) (spec : WorkloadIdentityPoolSpec)
    (generateOnly : Bool) : StepResult :=
  let name := spec.PoolName
  let project := spec.ProjectId
  if generateOnly then
    { outcome := .ok, calls := [] }
  else
    let getCall := CloudCall.getPool (poolResource project name)
    match client.GetWorkloadIdentityPool (poolResource project name) with
    | (resp, err) =>
      match err with
      | some gerr =>
        if isNotFoundErr gerr then
          let pool : WorkloadIdentityPool :=
            { Name := name, DisplayName := name, Description := poolDescription,
              State := "ACTIVE", Disabled := false }
          let createCall := CloudCall.createPool (parentResourceForPool project) name pool
          match client.CreateWorkloadIdentityPool (parentResourceForPool project) name pool with
          | some cerr => { outcome := .goError cerr, calls := [getCall, createCall] }
          | none => { outcome := .ok, calls := [getCall, createCall] }
        else
          { outcome := .goError gerr, calls := [getCall] }
      | none =>
        match resp with
        | some p =>
          if p.State == "DELETED" then
            let undeleteCall := CloudCall.undeletePool (poolResource project name)
            match client.UndeleteWorkloadIdentityPool (poolResource project name) with
            | some uerr => { outcome := .goError uerr, calls := [getCall, undeleteCall] }
            | none => { outcome := .ok, calls := [getCall, undeleteCall] }
          else
            { outcome := .ok, calls := [getCall] }
        | none => { outcome := .ok, calls := [getCall] }

/-! ## Provider reconciler (createWorkloadIdentityProvider) -/

/-- The provider body built in the notFound branch of
createWorkloadIdentityProvider. -/
def providerBody (spec : WorkloadIdentityPoolSpec) : WorkloadIdentityPoolProvider :=
  { Name := spec.PoolName, DisplayName := spec.PoolName, Description := poolDescription,
    State := "ACTIVE", Disabled := false,
    Oidc := { AllowedAudiences := [openShiftAudience], IssuerUri := spec.IssuerUrl,
              JwksJson := spec.Jwks },
    AttributeMapping := [("google.subject", "assertion.sub")] }

def createWorkloadIdentityProvider (client : GcpClient) (spec : WorkloadIdentityPoolSpec)
    (generateOnly : Bool) : StepResult :=
  if generateOnly then
    { outcome := .ok, calls := [] }
  else
    let getCall := CloudCall.getProvider (providerResource spec)
    match client.GetWorkloadIdentityProvider (providerResource spec) with
    | some gerr =>
      if isNotFoundErr gerr then
        let provider := providerBody spec
        let createCall :=
          CloudCall.createProvider (providerParentResource spec) spec.PoolName provider
        match client.CreateWorkloadIdentityProvider (providerParentResource spec)
            spec.PoolName provider with
        | some cerr => { outcome := .goError cerr, calls := [getCall, createCall] }
        | none => { outcome := .ok, calls := [getCall, createCall] }
      else
        { outcome := .goError gerr, calls := [getCall] }
    | none =>
      { outcome := .ok, calls := [getCall] }

/-! ## Service-account creation (CreateServiceAccount helper) -/

def CreateServiceAccount (gcpClient : GcpClient)
    (svcAcctID svcAcctName svcAcctDescription projectName : String)
    (allowExisting : Bool) : Option GoErr × List CloudCall :=
  let request : CreateServiceAccountRequest :=
    { Name := "projects/" ++ projectName, AccountId := svcAcctID,
      ServiceAccount := { DisplayName := svcAcctName, Description := svcAcctDescription } }
  let call := CloudCall.createServiceAccount request
  match gcpClient.CreateServiceAccount request with
  | some e =>
    match e with
    | .apiError grpcCode =>
      if grpcCode == codesAlreadyExists && allowExisting then (none, [call])
      else (some e, [call])
    | _ => (some e, [call])
  | none => (none, [call])

/-! ## Service-account reconciler (createServiceAccounts) -/

def fmtRoleResourceId (role : Role) : String := "roles/" ++ role.Id

/-- Warnings printed by the dry-run branch of createServiceAccounts (its
`default` switch case). -/
def dryRunWarnings : List ServiceAccount → List String
  | [] => []
  | serviceAccount :: rest =>
    (if serviceAccount.AccessMethod == "impersonate" || serviceAccount.AccessMethod == "wif"
     then [] else ["Warning: " ++ serviceAccount.AccessMethod ++ " is not a supported access type\n"])
      ++ dryRunWarnings rest

/-- Pass 1 of createServiceAccounts: create every account, stopping with the
wrapped error on the first failing create. -/
def createAccountsPass1 (gcpClient : GcpClient) (displayName projectId : String) :
    List ServiceAccount → Option GoErr × List CloudCall
  | [] => (none, [])
  | serviceAccount :: rest =>
    let serviceAccountID := serviceAccount.GetId
    let serviceAccountName := displayName ++ "-" ++ serviceAccountID
    let serviceAccountDesc := poolDescription ++ " for WIF config " ++ displayName
    match CreateServiceAccount gcpClient serviceAccountID serviceAccountName
        serviceAccountDesc projectId true with
    | (some e, calls) => (some e, calls)
    | (none, calls) =>
      match createAccountsPass1 gcpClient displayName projectId rest with
      | (err, calls2) => (err, calls ++ calls2)

/-- The inner role loop of pass 2: skip non-predefined roles with a warning,
bind predefined ones, and panic (first component `some e`) on a bind failure. -/
def bindRolesLoop (gcpClient : GcpClient) (serviceAccountID projectId saId : String) :
    List Role → Option GoErr × List CloudCall × List String
  | [] => (none, [], [])
  | role :: rest =>
    if !role.Predefined then
      let warning := "Skipping role \"" ++ role.Id ++ "\" for service account \"" ++
        saId ++ "\" as custom roles are not yet supported."
      match bindRolesLoop gcpClient serviceAccountID projectId saId rest with
      | (err, calls, warns) => (err, calls, warning :: warns)
    else
      let call := CloudCall.bindRole serviceAccountID projectId (fmtRoleResourceId role)
      match gcpClient.BindRole serviceAccountID projectId (fmtRoleResourceId role) with
      | some e => (some e, [call], [])
      | none =>
        match bindRolesLoop gcpClient serviceAccountID projectId saId rest with
        | (err, calls, warns) => (err, call :: calls, warns)

/-- The access-method switch of pass 2; unknown methods produce only a warning. -/
def grantAccess (gcpClient : GcpClient) (serviceAccount : ServiceAccount)
    (poolId projectId : String) : Option GoErr × List CloudCall × List String :=
  if serviceAccount.AccessMethod == "impersonate" then
    let call := CloudCall.attachImpersonator serviceAccount.Id projectId
      impersonatorServiceAccount
    (gcpClient.AttachImpersonator serviceAccount.Id projectId impersonatorServiceAccount,
      [call], [])
  else if serviceAccount.AccessMethod == "wif" then
    let call := CloudCall.attachWorkloadIdentityPool serviceAccount poolId projectId
    (gcpClient.AttachWorkloadIdentityPool serviceAccount poolId projectId, [call], [])
  else
    (none, [], ["Warning: " ++ serviceAccount.AccessMethod ++ " is not a supported access type\n"])

/-- Pass 2 of createServiceAccounts: bind roles then grant access per account;
a bind or attach failure panics, stopping the whole loop. -/
def createAccountsPass2 (gcpClient : GcpClient) (poolId projectId : String) :
    List ServiceAccount → Outcome × List CloudCall × List String
  | [] => (.ok, [], [])
  | serviceAccount :: rest =>
    let serviceAccountID := serviceAccount.GetId
    match bindRolesLoop gcpClient serviceAccountID projectId serviceAccount.Id
        serviceAccount.Roles with
    | (some e, bindCalls, bindWarns) => (.panicked e, bindCalls, bindWarns)
    | (none, bindCalls, bindWarns) =>
      match grantAccess gcpClient serviceAccount poolId projectId with
      | (some e, attachCalls, attachWarns) =>
        (.panicked e, bindCalls ++ attachCalls, bindWarns ++ attachWarns)
      | (none, attachCalls, attachWarns) =>
        match createAccountsPass2 gcpClient poolId projectId rest with
        | (out, calls, warns) =>
          (out, bindCalls ++ attachCalls ++ calls, bindWarns ++ attachWarns ++ warns)

def createServiceAccounts (gcpClient : GcpClient) (wifOutput : WifConfigOutput)
    (generateOnly : Bool) : SAResult :=
  let projectId := wifOutput.Spec.ProjectId
  if generateOnly then
    { outcome := .ok, calls := [],
      warnings := dryRunWarnings wifOutput.Status.ServiceAccounts }
  else
    match createAccountsPass1 gcpClient wifOutput.Spec.DisplayName projectId
        wifOutput.Status.ServiceAccounts with
    | (some e, calls1) => { outcome := .goError e, calls := calls1, warnings := [] }
    | (none, calls1) =>
      match createAccountsPass2 gcpClient
          wifOutput.Status.WorkloadIdentityPoolData.PoolId projectId
          wifOutput.Status.ServiceAccounts with
      | (out, calls2, warns) =>
        { outcome := out, calls := calls1 ++ calls2, warnings := warns }

/-! ## Provisioning entry point (createWorkloadIdentityConfigurationCmd) -/

/-- The command-line options read by the create command (Go `options` struct). -/
structure options where
  Name : String
  Project : String
  TargetDir : String
  DryRun : Bool
deriving Repr, DecidableEq

/-- createWorkloadIdentityConfiguration: ask the backend to create the WIF
config record (the call is issued unconditionally). -/
def createWorkloadIdentityConfiguration (ocmClient : OcmClient) (input : WifConfigInput) :
    Except GoErr WifConfigOutput × List OcmCall :=
  (ocmClient.CreateWifConfig input, [OcmCall.createWifConfig input])

/-- How the whole command ends: success, `log.Fatalf` on a step error, or a
propagated panic from pass 2 of createServiceAccounts. -/
inductive CmdResult where
  | success
  | fatalError (e : GoErr)
  | panicked (e : GoErr)
deriving Repr, DecidableEq

/-- The command's result together with both call traces. -/
structure CmdTrace where
  result : CmdResult
  ocmCalls : List OcmCall
  cloudCalls : List CloudCall
deriving Repr, DecidableEq

/-- The pool spec assembled from the backend's WIF config record. -/
def poolSpecOf (wifConfig : WifConfigOutput) : WorkloadIdentityPoolSpec :=
  { PoolName := wifConfig.Status.WorkloadIdentityPoolData.PoolId,
    ProjectId := wifConfig.Status.WorkloadIdentityPoolData.ProjectId,
    Jwks := wifConfig.Status.WorkloadIdentityPoolData.Jwks,
    IssuerUrl := wifConfig.Status.WorkloadIdentityPoolData.IssuerUrl,
    PoolIdentityProviderId := wifConfig.Status.WorkloadIdentityPoolData.IdentityProviderId }

def createWorkloadIdentityConfigurationCmd (ocmClient : OcmClient) (gcpClient : GcpClient)
    (opts : options) : CmdTrace :=
  match createWorkloadIdentityConfiguration ocmClient
      { DisplayName := opts.Name, ProjectId := opts.Project } with
  | (.error e, ocmCalls) =>
    { result := .fatalError e, ocmCalls := ocmCalls, cloudCalls := [] }
  | (.ok wifConfig, ocmCalls) =>
    let poolSpec := poolSpecOf wifConfig
    let poolRes := createWorkloadIdentityPool gcpClient poolSpec opts.DryRun
    match poolRes.outcome with
    | .goError e =>
      { result := .fatalError e, ocmCalls := ocmCalls, cloudCalls := poolRes.calls }
    | .panicked e =>
      { result := .panicked e, ocmCalls := ocmCalls, cloudCalls := poolRes.calls }
    | .ok =>
      let provRes := createWorkloadIdentityProvider gcpClient poolSpec opts.DryRun
      match provRes.outcome with
      | .goError e =>
        { result := .fatalError e, ocmCalls := ocmCalls,
          cloudCalls := poolRes.calls ++ provRes.calls }
      | .panicked e =>
        { result := .panicked e, ocmCalls := ocmCalls,
          cloudCalls := poolRes.calls ++ provRes.calls }
      | .ok =>
        let saRes := createServiceAccounts gcpClient wifConfig opts.DryRun
        match saRes.outcome with
        | .goError e =>
          { result := .fatalError e, ocmCalls := ocmCalls,
            cloudCalls := poolRes.calls ++ provRes.calls ++ saRes.calls }
        | .panicked e =>
          { result := .panicked e, ocmCalls := ocmCalls,
            cloudCalls := poolRes.calls ++ provRes.calls ++ saRes.calls }
        | .ok =>
          { result := .success, ocmCalls := ocmCalls,
            cloudCalls := poolRes.calls ++ provRes.calls ++ saRes.calls }

/-! ## update-wif-config.go: findWifConfig and the update command -/

/-- A `cmv1.WifConfig` as used by the update path (only its ID is read). -/
structure CmWifConfig where
  ID : String
deriving Repr, DecidableEq

/-- The list response: server-reported total and the returned page of items. -/
structure WifListResponse where
  Total : Nat
  Items : List CmWifConfig
deriving Repr, DecidableEq

/-- The clusters-management client used by the update path. -/
structure CmClient where
  ListWifConfigs : String → Nat → Nat → Except GoErr WifListResponse
  UpdateWifConfig : String → List String → Option GoErr

/-- The search query built by findWifConfig. -/
def findQuery (key : String) : String :=
  "id = \x27" ++ key ++ "\x27 or display_name = \x27" ++ key ++ "\x27"

/-- The zero-matches error message of findWifConfig. -/
def notFoundLookupMsg (key : String) : String :=
  "WIF configuration with identifier or name \x27" ++ key ++ "\x27 not found"

/-- The several-matches error message of findWifConfig (reports the count). -/
def ambiguousLookupMsg (total : Nat) (key : String) : String :=
  "there are " ++ toString total ++ " WIF configurations found with identifier or name \x27"
    ++ key ++ "\x27"

/-- Result of findWifConfig.  `panicked` is the index-out-of-range panic of
`response.Items().Slice()[0]` when the server reports one match but returns an
empty page. -/
inductive FindResult where
  | ok (cfg : CmWifConfig)
  | errRes (e : GoErr)
  | panicked
deriving Repr, DecidableEq

def findWifConfig (client : CmClient) (key : String) : FindResult × List OcmCall :=
  let page := 1
  let size := 1
  let call := OcmCall.listWifConfigs (findQuery key) page size
  match client.ListWifConfigs (findQuery key) page size with
  | .error e => (.errRes e, [call])
  | .ok response =>
    if response.Total == 0 then
      (.errRes (.otherErr (notFoundLookupMsg key)), [call])
    else if response.Total > 1 then
      (.errRes (.otherErr (ambiguousLookupMsg response.Total key)), [call])
    else
      match response.Items with
      | [] => (.panicked, [call])
      | c :: _ => (.ok c, [call])

/-- Is this backend call an update of a WIF config record? -/
def isUpdateCall : OcmCall → Bool
  | .updateWifConfig _ _ => true
  | _ => false

def updateWorkloadIdentityConfigurationCmd (connection : CmClient)
    (templates : List String) (id : String) : Outcome × List OcmCall :=
  match findWifConfig connection id with
  | (.errRes e, calls) => (.goError e, calls)
  | (.panicked, calls) => (.panicked (.otherErr "index out of range"), calls)
  | (.ok wifconfig, calls) =>
    let call := OcmCall.updateWifConfig wifconfig.ID templates
    match connection.UpdateWifConfig wifconfig.ID templates with
    | some e => (.goError e, calls ++ [call])
    | none => (.ok, calls ++ [call])

/-! ## Helper lemmas -/

/-- The request built for sa in pass 1 of createServiceAccounts. -/
def pass1Request (displayName projectId : String) (sa : ServiceAccount) :
    CreateServiceAccountRequest :=
  { Name := "projects/" ++ projectId, AccountId := sa.GetId,
    ServiceAccount :=
      { DisplayName := displayName ++ "-" ++ sa.GetId,
        Description := poolDescription ++ " for WIF config " ++ displayName } }

/-- Go error shape treated as "already exists" by CreateServiceAccount. -/
def isAlreadyExistsErr : GoErr → Bool
  | .apiError c => c == codesAlreadyExists
  | _ => false

/-! ## Concrete test fixtures -/

/-- A client whose every call succeeds (reads return empty results). -/
def noopClient : GcpClient :=
  { GetWorkloadIdentityPool := fun _ => (none, none),
    CreateWorkloadIdentityPool := fun _ _ _ => none,
    UndeleteWorkloadIdentityPool := fun _ => none,
    GetWorkloadIdentityProvider := fun _ => none,
    CreateWorkloadIdentityProvider := fun _ _ _ => none,
    CreateServiceAccount := fun _ => none,
    BindRole := fun _ _ _ => none,
    AttachImpersonator := fun _ _ _ => none,
    AttachWorkloadIdentityPool := fun _ _ _ => none }

def bindFailClient : GcpClient :=
  { noopClient with BindRole := fun _ _ _ => some (.otherErr "bind failed") }

def alreadyExistsClient : GcpClient :=
  { noopClient with CreateServiceAccount := fun _ => some (.apiError 6) }

def createRefusedClient : GcpClient :=
  { noopClient with CreateServiceAccount := fun _ => some (.otherErr "creation refused") }

def customRole : Role := { Id := "customX", Predefined := false }

def saViewer : ServiceAccount :=
  { Id := "sa1", AccessMethod := "wif", Roles := [{ Id := "viewer", Predefined := true }] }

def saSecond : ServiceAccount :=
  { Id := "sa2", AccessMethod := "wif", Roles := [{ Id := "editor", Predefined := true }] }

def saUnknown : ServiceAccount :=
  { Id := "sa9", AccessMethod := "magic", Roles := [customRole] }

def poolDataA : WorkloadIdentityPoolData :=
  { PoolId := "poolA", ProjectId := "proj1", Jwks := "jwks", IssuerUrl := "iss",
    IdentityProviderId := "prov" }

def wifOneAccount : WifConfigOutput :=
  { Spec := { DisplayName := "wifname", ProjectId := "proj1" },
    Status :=
      { WorkloadIdentityPoolData := poolDataA,
        ServiceAccounts := [{ Id := "osd-deployer", AccessMethod := "wif", Roles := [] }] } }

def wifTwoAccounts : WifConfigOutput :=
  { Spec := { DisplayName := "wifname", ProjectId := "proj1" },
    Status :=
      { WorkloadIdentityPoolData := poolDataA, ServiceAccounts := [saViewer, saSecond] } }

def poolProbeFailClient : GcpClient :=
  { noopClient with
    GetWorkloadIdentityPool := fun _ => (none, some (.otherErr "permission denied")) }

/-- A backend client that returns the given record. -/
def okOcmClient (wif : WifConfigOutput) : OcmClient :=
  { CreateWifConfig := fun _ => .ok wif }

/-- A clusters-management client whose search reports two matches. -/
def twoMatchesCmClient : CmClient :=
  { ListWifConfigs := fun _ _ _ => .ok { Total := 2, Items := [{ ID := "a" }] },
    UpdateWifConfig := fun _ _ => none }

theorem CreateServiceAccount_calls (gcpClient : GcpClient)
    (svcAcctID svcAcctName svcAcctDescription projectName : String) (allowExisting : Bool) :
    (CreateServiceAccount gcpClient svcAcctID svcAcctName svcAcctDescription projectName
      allowExisting).2 =
      [.createServiceAccount
        { Name := "projects/" ++ projectName, AccountId := svcAcctID,
          ServiceAccount :=
            { DisplayName := svcAcctName, Description := svcAcctDescription } }] := by
  simp only [CreateServiceAccount]
  cases h : gcpClient.CreateServiceAccount
      { Name := "projects/" ++ projectName, AccountId := svcAcctID,
        ServiceAccount :=
          { DisplayName := svcAcctName, Description := svcAcctDescription } } with
  | none => simp
  | some e =>
    cases e with
    | googleApi a b => simp
    | otherErr m => simp
    | apiError c =>
      simp only []
      split <;> simp

/-- Pass 1 never issues a bind or attach call. -/
theorem createAccountsPass1_no_bind_attach (gcpClient : GcpClient)
    (displayName projectId : String) (sas : List ServiceAccount) :
    ((createAccountsPass1 gcpClient displayName projectId sas).2).filter isBindOrAttach = [] := by
  induction sas with
  | nil => simp [createAccountsPass1]
  | cons sa rest ih =>
    rcases hc : CreateServiceAccount gcpClient sa.GetId (displayName ++ "-" ++ sa.GetId)
        (poolDescription ++ " for WIF config " ++ displayName) projectId true with ⟨errc, callsc⟩
    have hcalls : callsc = [.createServiceAccount (pass1Request displayName projectId sa)] := by
      have := CreateServiceAccount_calls gcpClient sa.GetId (displayName ++ "-" ++ sa.GetId)
        (poolDescription ++ " for WIF config " ++ displayName) projectId true
      rw [hc] at this
      exact this
    cases errc with
    | some e =>
      simp [createAccountsPass1, hc, hcalls, isBindOrAttach]
    | none =>
      rcases hr : createAccountsPass1 gcpClient displayName projectId rest with ⟨err2, calls2⟩
      have : calls2.filter isBindOrAttach = [] := by rw [hr] at ih; exact ih
      simp [createAccountsPass1, hc, hcalls, hr, isBindOrAttach, this]

/-- When pass 1 completes without error, it issued exactly one create call per
service account, with the request built by `pass1Request`. -/
theorem createAccountsPass1_calls_of_ok (gcpClient : GcpClient)
    (displayName projectId : String) (sas : List ServiceAccount)
    (h : (createAccountsPass1 gcpClient displayName projectId sas).1 = none) :
    (createAccountsPass1 gcpClient displayName projectId sas).2 =
      sas.map (fun sa => .createServiceAccount (pass1Request displayName projectId sa)) := by
  induction sas with
  | nil => simp [createAccountsPass1]
  | cons sa rest ih =>
    rcases hc : CreateServiceAccount gcpClient sa.GetId (displayName ++ "-" ++ sa.GetId)
        (poolDescription ++ " for WIF config " ++ displayName) projectId true with ⟨errc, callsc⟩
    have hcalls : callsc = [.createServiceAccount (pass1Request displayName projectId sa)] := by
      have := CreateServiceAccount_calls gcpClient sa.GetId (displayName ++ "-" ++ sa.GetId)
        (poolDescription ++ " for WIF config " ++ displayName) projectId true
      rw [hc] at this
      exact this
    cases errc with
    | some e =>
      exfalso
      simp [createAccountsPass1, hc] at h
    | none =>
      rcases hr : createAccountsPass1 gcpClient displayName projectId rest with ⟨err2, calls2⟩
      have hrest : err2 = none := by
        simp [createAccountsPass1, hc, hr] at h
        exact h
      subst hrest
      have htail : calls2 = rest.map
          (fun sa => .createServiceAccount (pass1Request displayName projectId sa)) := by
        rw [hr] at ih
        exact ih rfl
      simp [createAccountsPass1, hc, hcalls, hr, htail]

/-- Pass 2 distributes over an append whose left part completed fully. -/
theorem createAccountsPass2_append (gcpClient : GcpClient) (poolId projectId : String)
    (done l : List ServiceAccount)
    (h : (createAccountsPass2 gcpClient poolId projectId done).1 = .ok) :
    createAccountsPass2 gcpClient poolId projectId (done ++ l) =
      ((createAccountsPass2 gcpClient poolId projectId l).1,
       (createAccountsPass2 gcpClient poolId projectId done).2.1 ++
         (createAccountsPass2 gcpClient poolId projectId l).2.1,
       (createAccountsPass2 gcpClient poolId projectId done).2.2 ++
         (createAccountsPass2 gcpClient poolId projectId l).2.2) := by
  induction done with
  | nil => simp [createAccountsPass2]
  | cons sa rest ih =>
    rcases h1 : bindRolesLoop gcpClient sa.GetId projectId sa.Id sa.Roles with ⟨be, bc, bw⟩
    cases be with
    | some e =>
      exfalso
      simp [createAccountsPass2, h1] at h
    | none =>
      rcases h2 : grantAccess gcpClient sa poolId projectId with ⟨ae, ac, aw⟩
      cases ae with
      | some e =>
        exfalso
        simp [createAccountsPass2, h1, h2] at h
      | none =>
        rcases h3 : createAccountsPass2 gcpClient poolId projectId rest with ⟨o3, c3, w3⟩
        have hrest : o3 = .ok := by
          simp [createAccountsPass2, h1, h2, h3] at h
          exact h
        subst hrest
        have hih := ih (by rw [h3])
        rw [h3] at hih
        rcases h4 : createAccountsPass2 gcpClient poolId projectId l with ⟨o4, c4, w4⟩
        rw [h4] at hih
        simp only [List.cons_append]
        simp [createAccountsPass2, h1, h2, h3, hih, h4, List.append_assoc]

/-- If an account's own pass-2 work panics, the loop from that account on
returns exactly that account's result: nothing after it runs. -/
theorem createAccountsPass2_cons_panicked (gcpClient : GcpClient) (poolId projectId : String)
    (sa : ServiceAccount) (rest : List ServiceAccount) (e : GoErr)
    (h : (createAccountsPass2 gcpClient poolId projectId [sa]).1 = .panicked e) :
    createAccountsPass2 gcpClient poolId projectId (sa :: rest) =
      createAccountsPass2 gcpClient poolId projectId [sa] := by
  rcases h1 : bindRolesLoop gcpClient sa.GetId projectId sa.Id sa.Roles with ⟨be, bc, bw⟩
  cases be with
  | some e2 => simp [createAccountsPass2, h1]
  | none =>
    rcases h2 : grantAccess gcpClient sa poolId projectId with ⟨ae, ac, aw⟩
    cases ae with
    | some e2 => simp [createAccountsPass2, h1, h2]
    | none =>
      exfalso
      simp [createAccountsPass2, h1, h2] at h

/-- The bind loop behaves (in error and calls) exactly like the loop over only
the predefined roles: non-predefined roles never produce a bind call and do not
stop the remaining roles from being processed. -/
theorem bindRolesLoop_filter (gcpClient : GcpClient)
    (serviceAccountID projectId saId : String) (roles : List Role) :
    (bindRolesLoop gcpClient serviceAccountID projectId saId roles).1 =
      (bindRolesLoop gcpClient serviceAccountID projectId saId
        (roles.filter (fun r => r.Predefined))).1 ∧
    (bindRolesLoop gcpClient serviceAccountID projectId saId roles).2.1 =
      (bindRolesLoop gcpClient serviceAccountID projectId saId
        (roles.filter (fun r => r.Predefined))).2.1 := by
  induction roles with
  | nil => exact ⟨rfl, rfl⟩
  | cons role rest ih =>
    rcases hr : bindRolesLoop gcpClient serviceAccountID projectId saId rest with ⟨er, cr, wr⟩
    rcases hf : bindRolesLoop gcpClient serviceAccountID projectId saId
        (rest.filter (fun r => r.Predefined)) with ⟨ef, cf, wf⟩
    rw [hr, hf] at ih
    obtain ⟨ihe, ihc⟩ := ih
    simp at ihe ihc
    by_cases hp : role.Predefined
    · cases hb : gcpClient.BindRole serviceAccountID projectId (fmtRoleResourceId role) with
      | some e =>
        constructor <;> simp [bindRolesLoop, hp, hb, List.filter, hf]
      | none =>
        constructor <;> simp [bindRolesLoop, hp, hb, List.filter, hr, hf, ihe, ihc]
    · have hp' : role.Predefined = false := by simpa using hp
      constructor <;> simp [bindRolesLoop, hp', List.filter, hr, hf, ihe, ihc]

/-- Every non-predefined role in a successfully completed bind loop leaves its
skip warning in the warning list. -/
theorem bindRolesLoop_warning_mem (gcpClient : GcpClient)
    (serviceAccountID projectId saId : String) (roles : List Role) (role : Role)
    (hmem : role ∈ roles) (hp : role.Predefined = false)
    (hok : (bindRolesLoop gcpClient serviceAccountID projectId saId roles).1 = none) :
    ("Skipping role \"" ++ role.Id ++ "\" for service account \"" ++ saId ++
      "\" as custom roles are not yet supported.") ∈
      (bindRolesLoop gcpClient serviceAccountID projectId saId roles).2.2 := by
  induction roles with
  | nil => cases hmem
  | cons r rest ih =>
    rcases hr : bindRolesLoop gcpClient serviceAccountID projectId saId rest with ⟨er, cr, wr⟩
    rcases List.mem_cons.mp hmem with heq | hmem'
    · subst heq
      simp [bindRolesLoop, hp, hr]
    · by_cases hrp : r.Predefined
      · cases hb : gcpClient.BindRole serviceAccountID projectId (fmtRoleResourceId r) with
        | some e =>
          exfalso
          simp [bindRolesLoop, hrp, hb] at hok
        | none =>
          have her : er = none := by
            simp [bindRolesLoop, hrp, hb, hr] at hok
            exact hok
          have := ih hmem' (by rw [hr, her])
          rw [hr] at this
          simp [bindRolesLoop, hrp, hb, hr]
          exact this
      · have hrp' : r.Predefined = false := by
          cases hpp : r.Predefined
          · rfl
          · exact absurd hpp hrp
        have her : er = none := by
          simp [bindRolesLoop, hrp', hr] at hok
          exact hok
        have := ih hmem' (by rw [hr, her])
        rw [hr] at this
        simp [bindRolesLoop, hrp', hr]
        right
        exact this

/-- Every call the pool reconciler makes belongs to the pool API. -/
theorem createWorkloadIdentityPool_calls_poolApi (client : GcpClient)
    (spec : WorkloadIdentityPoolSpec) (generateOnly : Bool) :
    ((createWorkloadIdentityPool client spec generateOnly).calls).all isPoolApiCall = true := by
  cases generateOnly with
  | true => simp [createWorkloadIdentityPool]
  | false =>
    rcases hp : client.GetWorkloadIdentityPool (poolResource spec.ProjectId spec.PoolName)
      with ⟨r, err⟩
    cases err with
    | some ge =>
      by_cases hnf : isNotFoundErr ge
      · cases hc : client.CreateWorkloadIdentityPool (parentResourceForPool spec.ProjectId)
            spec.PoolName
            { Name := spec.PoolName, DisplayName := spec.PoolName,
              Description := poolDescription, State := "ACTIVE", Disabled := false } with
        | some ce => simp [createWorkloadIdentityPool, hp, hnf, hc, isPoolApiCall]
        | none => simp [createWorkloadIdentityPool, hp, hnf, hc, isPoolApiCall]
      · have hnf' : isNotFoundErr ge = false := by simpa using hnf
        simp [createWorkloadIdentityPool, hp, hnf', isPoolApiCall]
    | none =>
      cases r with
      | none => simp [createWorkloadIdentityPool, hp, isPoolApiCall]
      | some p =>
        by_cases hdel : p.State == "DELETED"
        · cases hu : client.UndeleteWorkloadIdentityPool
              (poolResource spec.ProjectId spec.PoolName) with
          | some ue => simp [createWorkloadIdentityPool, hp, hdel, hu, isPoolApiCall]
          | none => simp [createWorkloadIdentityPool, hp, hdel, hu, isPoolApiCall]
        · have hdel' : (p.State == "DELETED") = false := by simpa using hdel
          simp [createWorkloadIdentityPool, hp, hdel', isPoolApiCall]

/-- Every call the provider reconciler makes belongs to the provider API. -/
theorem createWorkloadIdentityProvider_calls_providerApi (client : GcpClient)
    (spec : WorkloadIdentityPoolSpec) (generateOnly : Bool) :
    ((createWorkloadIdentityProvider client spec generateOnly).calls).all
      isProviderApiCall = true := by
  cases generateOnly with
  | true => simp [createWorkloadIdentityProvider]
  | false =>
    cases hp : client.GetWorkloadIdentityProvider (providerResource spec) with
    | none => simp [createWorkloadIdentityProvider, hp, isProviderApiCall]
    | some ge =>
      by_cases hnf : isNotFoundErr ge
      · cases hc : client.CreateWorkloadIdentityProvider (providerParentResource spec)
            spec.PoolName (providerBody spec) with
        | some ce => simp [createWorkloadIdentityProvider, hp, hnf, hc, isProviderApiCall]
        | none => simp [createWorkloadIdentityProvider, hp, hnf, hc, isProviderApiCall]
      · have hnf' : isNotFoundErr ge = false := by simpa using hnf
        simp [createWorkloadIdentityProvider, hp, hnf', isProviderApiCall]

/-- Pool-API calls are not provider-API calls. -/
theorem poolApi_not_providerApi (c : CloudCall) (h : isPoolApiCall c = true) :
    isProviderApiCall c = false := by
  cases c <;> simp_all [isPoolApiCall, isProviderApiCall]

/-- Pool-API calls are not service-account-API calls. -/
theorem poolApi_not_serviceAccountApi (c : CloudCall) (h : isPoolApiCall c = true) :
    isServiceAccountApiCall c = false := by
  cases c <;> simp_all [isPoolApiCall, isServiceAccountApiCall]

/-- Provider-API calls are not service-account-API calls. -/
theorem providerApi_not_serviceAccountApi (c : CloudCall) (h : isProviderApiCall c = true) :
    isServiceAccountApiCall c = false := by
  cases c <;> simp_all [isProviderApiCall, isServiceAccountApiCall]

/-- An unrecognized access method issues no attach call, fails nothing, and
records a warning naming the method. -/
theorem grantAccess_unknown (gcpClient : GcpClient) (serviceAccount : ServiceAccount)
    (poolId projectId : String)
    (h1 : serviceAccount.AccessMethod ≠ "impersonate")
    (h2 : serviceAccount.AccessMethod ≠ "wif") :
    grantAccess gcpClient serviceAccount poolId projectId =
      (none, [], ["Warning: " ++ serviceAccount.AccessMethod ++
        " is not a supported access type\n"]) := by
  have hb1 : (serviceAccount.AccessMethod == "impersonate") = false :=
    beq_eq_false_iff_ne.mpr h1
  have hb2 : (serviceAccount.AccessMethod == "wif") = false :=
    beq_eq_false_iff_ne.mpr h2
  simp [grantAccess, hb1, hb2]

/-! ## Theorems -/

/-- C1: a cloud read (probe) error is classified notFound iff it is an HTTP
(`googleapi`) error with code 404 whose message contains the exact substring
"Requested entity was not found"; every other probe error makes the pool and
provider reconcilers return that error unchanged without attempting any create
call (the trace holds only the read). -/
theorem claim_C1 (e : GoErr) :
    (isNotFoundErr e = true ↔
      ∃ msg, e = .googleApi 404 msg ∧ stringsContains msg entityNotFoundMsg = true) ∧
    (∀ (client : GcpClient) (spec : WorkloadIdentityPoolSpec) (r : Option WorkloadIdentityPool),
      client.GetWorkloadIdentityPool (poolResource spec.ProjectId spec.PoolName) = (r, some e) →
      isNotFoundErr e = false →
      createWorkloadIdentityPool client spec false =
        { outcome := .goError e,
          calls := [.getPool (poolResource spec.ProjectId spec.PoolName)] }) ∧
    (∀ (client : GcpClient) (spec : WorkloadIdentityPoolSpec),
      client.GetWorkloadIdentityProvider (providerResource spec) = some e →
      isNotFoundErr e = false →
      createWorkloadIdentityProvider client spec false =
        { outcome := .goError e, calls := [.getProvider (providerResource spec)] }) := by
  refine ⟨?_, ?_, ?_⟩
  · cases e with
    | googleApi code msg =>
      simp only [isNotFoundErr, Bool.and_eq_true, beq_iff_eq]
      constructor
      · rintro ⟨h404, hc⟩
        exact ⟨msg, by rw [h404], hc⟩
      · rintro ⟨msg', heq, hc⟩
        cases heq
        exact ⟨rfl, hc⟩
    | apiError c =>
      simp [isNotFoundErr]
    | otherErr m =>
      simp [isNotFoundErr]
  · intro client spec r hprobe hnot
    simp [createWorkloadIdentityPool, hprobe, hnot]
  · intro client spec hprobe hnot
    simp [createWorkloadIdentityProvider, hprobe, hnot]

/-- Witness for C1 at a concrete non-404 error and a concrete client. -/
theorem claim_C1_witness :
    (isNotFoundErr (.otherErr "permission denied") = true ↔
      ∃ msg, GoErr.otherErr "permission denied" = .googleApi 404 msg ∧
        stringsContains msg entityNotFoundMsg = true) ∧
    createWorkloadIdentityPool
      { GetWorkloadIdentityPool := fun _ => (none, some (.otherErr "permission denied")),
        CreateWorkloadIdentityPool := fun _ _ _ => none,
        UndeleteWorkloadIdentityPool := fun _ => none,
        GetWorkloadIdentityProvider := fun _ => some (.otherErr "permission denied"),
        CreateWorkloadIdentityProvider := fun _ _ _ => none,
        CreateServiceAccount := fun _ => none,
        BindRole := fun _ _ _ => none,
        AttachImpersonator := fun _ _ _ => none,
        AttachWorkloadIdentityPool := fun _ _ _ => none }
      { PoolName := "pool1", ProjectId := "proj1", Jwks := "jwks",
        IssuerUrl := "https://iss", PoolIdentityProviderId := "prov1" } false =
      { outcome := .goError (.otherErr "permission denied"),
        calls := [.getPool (poolResource "proj1" "pool1")] } ∧
    createWorkloadIdentityProvider
      { GetWorkloadIdentityPool := fun _ => (none, some (.otherErr "permission denied")),
        CreateWorkloadIdentityPool := fun _ _ _ => none,
        UndeleteWorkloadIdentityPool := fun _ => none,
        GetWorkloadIdentityProvider := fun _ => some (.otherErr "permission denied"),
        CreateWorkloadIdentityProvider := fun _ _ _ => none,
        CreateServiceAccount := fun _ => none,
        BindRole := fun _ _ _ => none,
        AttachImpersonator := fun _ _ _ => none,
        AttachWorkloadIdentityPool := fun _ _ _ => none }
      { PoolName := "pool1", ProjectId := "proj1", Jwks := "jwks",
        IssuerUrl := "https://iss", PoolIdentityProviderId := "prov1" } false =
      { outcome := .goError (.otherErr "permission denied"),
        calls := [.getProvider (providerResource
          { PoolName := "pool1", ProjectId := "proj1", Jwks := "jwks",
            IssuerUrl := "https://iss", PoolIdentityProviderId := "prov1" })] } := by
  have h := claim_C1 (.otherErr "permission denied")
  exact ⟨h.1, h.2.1 _ _ none rfl (by decide), h.2.2 _ _ rfl (by decide)⟩

/-- C2: in a non-dry-run pool reconciliation, a notFound-classified probe error
leads to exactly one mutation call, the pool create (description
"Created by the OCM CLI", state "ACTIVE", not disabled) and no undelete; a
probed pool in state "DELETED" leads to exactly one mutation call, the
undelete, and never a create; a probed pool in any other state leads to zero
mutation calls and a nil (ok) return. -/
theorem claim_C2 (client : GcpClient) (spec : WorkloadIdentityPoolSpec)
    (r : Option WorkloadIdentityPool) (err : Option GoErr)
    (hprobe : client.GetWorkloadIdentityPool (poolResource spec.ProjectId spec.PoolName) =
      (r, err)) :
    (∀ ge, err = some ge → isNotFoundErr ge = true →
      (createWorkloadIdentityPool client spec false).calls.filter isMutationCall =
        [.createPool (parentResourceForPool spec.ProjectId) spec.PoolName
          { Name := spec.PoolName, DisplayName := spec.PoolName,
            Description := poolDescription, State := "ACTIVE", Disabled := false }]) ∧
    (∀ p, err = none → r = some p → p.State = "DELETED" →
      (createWorkloadIdentityPool client spec false).calls.filter isMutationCall =
        [.undeletePool (poolResource spec.ProjectId spec.PoolName)]) ∧
    (∀ p, err = none → r = some p → p.State ≠ "DELETED" →
      (createWorkloadIdentityPool client spec false).calls.filter isMutationCall = [] ∧
      (createWorkloadIdentityPool client spec false).outcome = .ok) := by
  refine ⟨?_, ?_, ?_⟩
  · rintro ge rfl hnf
    cases hc : client.CreateWorkloadIdentityPool (parentResourceForPool spec.ProjectId)
        spec.PoolName
        { Name := spec.PoolName, DisplayName := spec.PoolName,
          Description := poolDescription, State := "ACTIVE", Disabled := false } with
    | none =>
      simp [createWorkloadIdentityPool, hprobe, hnf, hc, List.filter, isMutationCall]
    | some ce =>
      simp [createWorkloadIdentityPool, hprobe, hnf, hc, List.filter, isMutationCall]
  · rintro p rfl rfl hdel
    cases hu : client.UndeleteWorkloadIdentityPool (poolResource spec.ProjectId spec.PoolName) with
    | none =>
      simp [createWorkloadIdentityPool, hprobe, hdel, hu, List.filter, isMutationCall]
    | some ue =>
      simp [createWorkloadIdentityPool, hprobe, hdel, hu, List.filter, isMutationCall]
  · rintro p rfl rfl hdel
    have hbeq : (p.State == "DELETED") = false := beq_eq_false_iff_ne.mpr hdel
    constructor
    · simp [createWorkloadIdentityPool, hprobe, hbeq, List.filter, isMutationCall]
    · simp [createWorkloadIdentityPool, hprobe, hbeq]

/-- Witness for C2: with a probe reporting a DELETED pool, the only mutation
call is the undelete. -/
theorem claim_C2_witness :
    (createWorkloadIdentityPool
      { GetWorkloadIdentityPool := fun _ =>
          (some { Name := "pool1", DisplayName := "pool1", Description := "",
                  State := "DELETED", Disabled := false }, none),
        CreateWorkloadIdentityPool := fun _ _ _ => none,
        UndeleteWorkloadIdentityPool := fun _ => none,
        GetWorkloadIdentityProvider := fun _ => none,
        CreateWorkloadIdentityProvider := fun _ _ _ => none,
        CreateServiceAccount := fun _ => none,
        BindRole := fun _ _ _ => none,
        AttachImpersonator := fun _ _ _ => none,
        AttachWorkloadIdentityPool := fun _ _ _ => none }
      { PoolName := "pool1", ProjectId := "proj1", Jwks := "jwks",
        IssuerUrl := "https://iss", PoolIdentityProviderId := "prov1" }
      false).calls.filter isMutationCall =
      [.undeletePool (poolResource "proj1" "pool1")] := by
  have h := claim_C2
    { GetWorkloadIdentityPool := fun _ =>
        (some { Name := "pool1", DisplayName := "pool1", Description := "",
                State := "DELETED", Disabled := false }, none),
      CreateWorkloadIdentityPool := fun _ _ _ => none,
      UndeleteWorkloadIdentityPool := fun _ => none,
      GetWorkloadIdentityProvider := fun _ => none,
      CreateWorkloadIdentityProvider := fun _ _ _ => none,
      CreateServiceAccount := fun _ => none,
      BindRole := fun _ _ _ => none,
      AttachImpersonator := fun _ _ _ => none,
      AttachWorkloadIdentityPool := fun _ _ _ => none }
    { PoolName := "pool1", ProjectId := "proj1", Jwks := "jwks",
      IssuerUrl := "https://iss", PoolIdentityProviderId := "prov1" }
    (some { Name := "pool1", DisplayName := "pool1", Description := "",
            State := "DELETED", Disabled := false }) none rfl
  exact h.2.1 _ rfl rfl rfl

/-- C5: in a non-dry-run provider reconciliation there are exactly two
behaviours: a notFound-classified probe error leads to exactly one mutation
call, the provider create carrying the OIDC configuration (issuer URL, JWKS
document, the allowed-audience set, and the attribute mapping
google.subject ← assertion.sub); a successful probe (any state) leads to no
mutation call of any kind. -/
theorem claim_C5 (client : GcpClient) (spec : WorkloadIdentityPoolSpec) :
    (∀ ge, client.GetWorkloadIdentityProvider (providerResource spec) = some ge →
      isNotFoundErr ge = true →
      (createWorkloadIdentityProvider client spec false).calls.filter isMutationCall =
        [.createProvider (providerParentResource spec) spec.PoolName (providerBody spec)] ∧
      (providerBody spec).Oidc.IssuerUri = spec.IssuerUrl ∧
      (providerBody spec).Oidc.JwksJson = spec.Jwks ∧
      (providerBody spec).Oidc.AllowedAudiences = [openShiftAudience] ∧
      (providerBody spec).AttributeMapping = [("google.subject", "assertion.sub")]) ∧
    (client.GetWorkloadIdentityProvider (providerResource spec) = none →
      createWorkloadIdentityProvider client spec false =
        { outcome := .ok, calls := [.getProvider (providerResource spec)] }) := by
  constructor
  · intro ge hprobe hnf
    refine ⟨?_, rfl, rfl, rfl, rfl⟩
    cases hc : client.CreateWorkloadIdentityProvider (providerParentResource spec)
        spec.PoolName (providerBody spec) with
    | none =>
      simp [createWorkloadIdentityProvider, hprobe, hnf, hc, List.filter, isMutationCall]
    | some ce =>
      simp [createWorkloadIdentityProvider, hprobe, hnf, hc, List.filter, isMutationCall]
  · intro hprobe
    simp [createWorkloadIdentityProvider, hprobe]

/-- Witness for C5 at a concrete client whose provider probe reports notFound. -/
theorem claim_C5_witness :
    (createWorkloadIdentityProvider
      { GetWorkloadIdentityPool := fun _ => (none, none),
        CreateWorkloadIdentityPool := fun _ _ _ => none,
        UndeleteWorkloadIdentityPool := fun _ => none,
        GetWorkloadIdentityProvider := fun _ =>
          some (.googleApi 404 "Requested entity was not found"),
        CreateWorkloadIdentityProvider := fun _ _ _ => none,
        CreateServiceAccount := fun _ => none,
        BindRole := fun _ _ _ => none,
        AttachImpersonator := fun _ _ _ => none,
        AttachWorkloadIdentityPool := fun _ _ _ => none }
      { PoolName := "pool1", ProjectId := "proj1", Jwks := "jwks",
        IssuerUrl := "https://iss", PoolIdentityProviderId := "prov1" }
      false).calls.filter isMutationCall =
      [.createProvider
        (providerParentResource
          { PoolName := "pool1", ProjectId := "proj1", Jwks := "jwks",
            IssuerUrl := "https://iss", PoolIdentityProviderId := "prov1" })
        "pool1"
        (providerBody
          { PoolName := "pool1", ProjectId := "proj1", Jwks := "jwks",
            IssuerUrl := "https://iss", PoolIdentityProviderId := "prov1" })] := by
  have h := claim_C5
    { GetWorkloadIdentityPool := fun _ => (none, none),
      CreateWorkloadIdentityPool := fun _ _ _ => none,
      UndeleteWorkloadIdentityPool := fun _ => none,
      GetWorkloadIdentityProvider := fun _ =>
        some (.googleApi 404 "Requested entity was not found"),
      CreateWorkloadIdentityProvider := fun _ _ _ => none,
      CreateServiceAccount := fun _ => none,
      BindRole := fun _ _ _ => none,
      AttachImpersonator := fun _ _ _ => none,
      AttachWorkloadIdentityPool := fun _ _ _ => none }
    { PoolName := "pool1", ProjectId := "proj1", Jwks := "jwks",
      IssuerUrl := "https://iss", PoolIdentityProviderId := "prov1" }
  exact (h.1 _ rfl (by decide)).1

/-- C8: with dry-run enabled, each of the three reconciliation steps issues no
cloud call at all (in particular no mutation) and returns success, for every
client, spec and probed cloud state. -/
theorem claim_C8 (gcpClient : GcpClient) (spec : WorkloadIdentityPoolSpec)
    (wifOutput : WifConfigOutput) :
    createWorkloadIdentityPool gcpClient spec true = { outcome := .ok, calls := [] } ∧
    createWorkloadIdentityProvider gcpClient spec true = { outcome := .ok, calls := [] } ∧
    (createServiceAccounts gcpClient wifOutput true).outcome = .ok ∧
    (createServiceAccounts gcpClient wifOutput true).calls = [] := by
  refine ⟨rfl, rfl, ?_, ?_⟩ <;> simp [createServiceAccounts]

/-- C3: in pass 2 of service-account reconciliation, a role-bind or
access-method-attach failure for one account stops the whole provisioning run
immediately with that error (a panic): the run's trace is exactly pass 1's
create calls plus the pass-2 calls of the accounts before the failing one plus
the failing account's own calls — no bind or attach call is made for the
remaining accounts, and pass 1 contributes no bind/attach calls at all. -/
theorem claim_C3 (gcpClient : GcpClient) (wifOutput : WifConfigOutput)
    (done rest : List ServiceAccount) (sa : ServiceAccount) (e : GoErr)
    (calls1 : List CloudCall)
    (hlist : wifOutput.Status.ServiceAccounts = done ++ sa :: rest)
    (hpass1 : createAccountsPass1 gcpClient wifOutput.Spec.DisplayName
      wifOutput.Spec.ProjectId wifOutput.Status.ServiceAccounts = (none, calls1))
    (hdone : (createAccountsPass2 gcpClient wifOutput.Status.WorkloadIdentityPoolData.PoolId
      wifOutput.Spec.ProjectId done).1 = .ok)
    (hsa : (createAccountsPass2 gcpClient wifOutput.Status.WorkloadIdentityPoolData.PoolId
      wifOutput.Spec.ProjectId [sa]).1 = .panicked e) :
    createServiceAccounts gcpClient wifOutput false =
      { outcome := .panicked e,
        calls := calls1 ++
          ((createAccountsPass2 gcpClient wifOutput.Status.WorkloadIdentityPoolData.PoolId
              wifOutput.Spec.ProjectId done).2.1 ++
            (createAccountsPass2 gcpClient wifOutput.Status.WorkloadIdentityPoolData.PoolId
              wifOutput.Spec.ProjectId [sa]).2.1),
        warnings :=
          (createAccountsPass2 gcpClient wifOutput.Status.WorkloadIdentityPoolData.PoolId
            wifOutput.Spec.ProjectId done).2.2 ++
          (createAccountsPass2 gcpClient wifOutput.Status.WorkloadIdentityPoolData.PoolId
            wifOutput.Spec.ProjectId [sa]).2.2 } ∧
    calls1.filter isBindOrAttach = [] := by
  constructor
  · have hcons := createAccountsPass2_cons_panicked gcpClient
      wifOutput.Status.WorkloadIdentityPoolData.PoolId wifOutput.Spec.ProjectId sa rest e hsa
    have happ := createAccountsPass2_append gcpClient
      wifOutput.Status.WorkloadIdentityPoolData.PoolId wifOutput.Spec.ProjectId done
      (sa :: rest) hdone
    rw [hcons] at happ
    have hpass1' := hpass1
    rw [hlist] at hpass1'
    simp [createServiceAccounts, hlist, hpass1', happ, hsa]
  · have hn := createAccountsPass1_no_bind_attach gcpClient wifOutput.Spec.DisplayName
      wifOutput.Spec.ProjectId wifOutput.Status.ServiceAccounts
    rw [hpass1] at hn
    exact hn

/-- Witness for C3: a bind failure on the first of two accounts panics the run
and no pass-2 call is made for the second account. -/
theorem claim_C3_witness :
    createServiceAccounts bindFailClient wifTwoAccounts false =
      { outcome := .panicked (.otherErr "bind failed"),
        calls := [.createServiceAccount (pass1Request "wifname" "proj1" saViewer),
            .createServiceAccount (pass1Request "wifname" "proj1" saSecond)] ++
          ((createAccountsPass2 bindFailClient "poolA" "proj1" []).2.1 ++
            (createAccountsPass2 bindFailClient "poolA" "proj1" [saViewer]).2.1),
        warnings := (createAccountsPass2 bindFailClient "poolA" "proj1" []).2.2 ++
          (createAccountsPass2 bindFailClient "poolA" "proj1" [saViewer]).2.2 } ∧
    ([.createServiceAccount (pass1Request "wifname" "proj1" saViewer),
      .createServiceAccount (pass1Request "wifname" "proj1" saSecond)] :
        List CloudCall).filter isBindOrAttach = [] :=
  claim_C3 bindFailClient wifTwoAccounts [] [saSecond] saViewer (.otherErr "bind failed")
    [.createServiceAccount (pass1Request "wifname" "proj1" saViewer),
     .createServiceAccount (pass1Request "wifname" "proj1" saSecond)]
    (by decide) (by decide) (by decide) (by decide)

/-- C4 counterexample: the claim says accounts are created under the account
ID `displayName + "-" + id`, but the issued create call carries the bare spec
id as its AccountId — the concatenation is only the display name. -/
theorem claim_C4_counterexample :
    (createServiceAccounts noopClient wifOneAccount false).calls.head? =
      some (.createServiceAccount
        { Name := "projects/proj1", AccountId := "osd-deployer",
          ServiceAccount :=
            { DisplayName := "wifname-osd-deployer",
              Description := "Created by the OCM CLI for WIF config wifname" } }) ∧
    "osd-deployer" ≠ "wifname" ++ "-" ++ "osd-deployer" := by
  constructor
  · decide
  · decide

/-- C4 (amended): in pass 1 every service account is created-or-fetched with
its account ID equal to the spec's id, while the concatenation
displayName + "-" + id is used as the account's display name; an
already-exists response (gRPC AlreadyExists) from the create call is treated
as success, and any other creation error fails the whole provisioning run. -/
theorem claim_C4_amended (gcpClient : GcpClient) (wifOutput : WifConfigOutput) :
    (∀ displayName projectId sa,
      (pass1Request displayName projectId sa).AccountId = sa.Id ∧
      (pass1Request displayName projectId sa).ServiceAccount.DisplayName =
        displayName ++ "-" ++ sa.Id) ∧
    ((createAccountsPass1 gcpClient wifOutput.Spec.DisplayName wifOutput.Spec.ProjectId
        wifOutput.Status.ServiceAccounts).1 = none →
      (createAccountsPass1 gcpClient wifOutput.Spec.DisplayName wifOutput.Spec.ProjectId
        wifOutput.Status.ServiceAccounts).2 =
        wifOutput.Status.ServiceAccounts.map
          (fun sa => .createServiceAccount
            (pass1Request wifOutput.Spec.DisplayName wifOutput.Spec.ProjectId sa))) ∧
    (∀ svcAcctID svcAcctName svcAcctDescription projectName e,
      gcpClient.CreateServiceAccount
        { Name := "projects/" ++ projectName, AccountId := svcAcctID,
          ServiceAccount :=
            { DisplayName := svcAcctName, Description := svcAcctDescription } } = some e →
      (isAlreadyExistsErr e = true →
        (CreateServiceAccount gcpClient svcAcctID svcAcctName svcAcctDescription
          projectName true).1 = none) ∧
      (isAlreadyExistsErr e = false →
        (CreateServiceAccount gcpClient svcAcctID svcAcctName svcAcctDescription
          projectName true).1 = some e)) ∧
    (∀ e calls1,
      createAccountsPass1 gcpClient wifOutput.Spec.DisplayName wifOutput.Spec.ProjectId
        wifOutput.Status.ServiceAccounts = (some e, calls1) →
      createServiceAccounts gcpClient wifOutput false =
        { outcome := .goError e, calls := calls1, warnings := [] }) := by
  refine ⟨fun d p sa => ⟨rfl, rfl⟩,
    createAccountsPass1_calls_of_ok gcpClient _ _ _, ?_, ?_⟩
  · intro sID sName sDesc proj e h
    constructor
    · intro ha
      cases e with
      | apiError c =>
        have hc : (c == codesAlreadyExists) = true := by
          simpa [isAlreadyExistsErr] using ha
        simp [CreateServiceAccount, h, hc]
      | googleApi a b => simp [isAlreadyExistsErr] at ha
      | otherErr m => simp [isAlreadyExistsErr] at ha
    · intro ha
      cases e with
      | apiError c =>
        have hc : (c == codesAlreadyExists) = false := by
          simpa [isAlreadyExistsErr] using ha
        simp [CreateServiceAccount, h, hc]
      | googleApi a b => simp [CreateServiceAccount, h]
      | otherErr m => simp [CreateServiceAccount, h]
  · intro e calls1 h
    simp [createServiceAccounts, h]

/-- Witness for the amended C4: already-exists is success, the create requests
carry id/display-name as amended, and a refused create fails the run. -/
theorem claim_C4_amended_witness :
    (pass1Request "wifname" "proj1"
      { Id := "osd-deployer", AccessMethod := "wif", Roles := [] }).AccountId =
      "osd-deployer" ∧
    (CreateServiceAccount alreadyExistsClient "osd-deployer" "wifname-osd-deployer"
      "desc" "proj1" true).1 = none ∧
    (createAccountsPass1 noopClient "wifname" "proj1"
        wifOneAccount.Status.ServiceAccounts).2 =
      wifOneAccount.Status.ServiceAccounts.map
        (fun sa => .createServiceAccount (pass1Request "wifname" "proj1" sa)) ∧
    createServiceAccounts createRefusedClient wifOneAccount false =
      { outcome := .goError (.otherErr "creation refused"),
        calls := [.createServiceAccount (pass1Request "wifname" "proj1"
          { Id := "osd-deployer", AccessMethod := "wif", Roles := [] })],
        warnings := [] } := by
  have h1 := claim_C4_amended alreadyExistsClient wifOneAccount
  have h2 := claim_C4_amended noopClient wifOneAccount
  have h3 := claim_C4_amended createRefusedClient wifOneAccount
  exact ⟨(h1.1 "wifname" "proj1" _).1,
    ((h1.2.2.1 "osd-deployer" "wifname-osd-deployer" "desc" "proj1" (.apiError 6) rfl).1
      (by decide)),
    h2.2.1 (by decide),
    h3.2.2.2 (.otherErr "creation refused") _ (by decide)⟩

/-- C6: a role with predefined=false never causes a bind call — the bind
loop's error and calls equal those over only the predefined roles, so the
remaining roles are still processed — and it leaves a skip warning; an access
method that is neither "impersonate" nor "wif" causes no attach call, records
a warning naming the method, does not fail the account, and the remaining
sibling accounts are still processed. -/
theorem claim_C6 (gcpClient : GcpClient) :
    (∀ serviceAccountID projectId saId roles,
      (bindRolesLoop gcpClient serviceAccountID projectId saId roles).1 =
        (bindRolesLoop gcpClient serviceAccountID projectId saId
          (roles.filter (fun r => r.Predefined))).1 ∧
      (bindRolesLoop gcpClient serviceAccountID projectId saId roles).2.1 =
        (bindRolesLoop gcpClient serviceAccountID projectId saId
          (roles.filter (fun r => r.Predefined))).2.1) ∧
    (∀ serviceAccountID projectId saId roles role,
      role ∈ roles → role.Predefined = false →
      (bindRolesLoop gcpClient serviceAccountID projectId saId roles).1 = none →
      ("Skipping role \"" ++ role.Id ++ "\" for service account \"" ++ saId ++
        "\" as custom roles are not yet supported.") ∈
        (bindRolesLoop gcpClient serviceAccountID projectId saId roles).2.2) ∧
    (∀ serviceAccount poolId projectId,
      serviceAccount.AccessMethod ≠ "impersonate" → serviceAccount.AccessMethod ≠ "wif" →
      grantAccess gcpClient serviceAccount poolId projectId =
        (none, [], ["Warning: " ++ serviceAccount.AccessMethod ++
          " is not a supported access type\n"])) ∧
    (∀ serviceAccount rest poolId projectId,
      (createAccountsPass2 gcpClient poolId projectId [serviceAccount]).1 = .ok →
      createAccountsPass2 gcpClient poolId projectId (serviceAccount :: rest) =
        ((createAccountsPass2 gcpClient poolId projectId rest).1,
         (createAccountsPass2 gcpClient poolId projectId [serviceAccount]).2.1 ++
           (createAccountsPass2 gcpClient poolId projectId rest).2.1,
         (createAccountsPass2 gcpClient poolId projectId [serviceAccount]).2.2 ++
           (createAccountsPass2 gcpClient poolId projectId rest).2.2)) := by
  refine ⟨fun a b c roles => bindRolesLoop_filter gcpClient a b c roles,
    fun a b c roles role hm hp hok =>
      bindRolesLoop_warning_mem gcpClient a b c roles role hm hp hok,
    fun sa p j h1 h2 => grantAccess_unknown gcpClient sa p j h1 h2, ?_⟩
  intro sa rest poolId projectId hok
  have h := createAccountsPass2_append gcpClient poolId projectId [sa] rest hok
  simpa using h

/-- Witness for C6: a custom role is skipped with its warning, an unknown
access method only warns, and the sibling account is still processed. -/
theorem claim_C6_witness :
    (bindRolesLoop noopClient "sa9" "proj1" "sa9" [customRole]).2.1 =
      (bindRolesLoop noopClient "sa9" "proj1" "sa9"
        ([customRole].filter (fun r => r.Predefined))).2.1 ∧
    ("Skipping role \"customX\" for service account \"sa9\" as custom roles are not yet supported.") ∈
      (bindRolesLoop noopClient "sa9" "proj1" "sa9" [customRole]).2.2 ∧
    grantAccess noopClient saUnknown "poolA" "proj1" =
      (none, [], ["Warning: magic is not a supported access type\n"]) ∧
    createAccountsPass2 noopClient "poolA" "proj1" (saUnknown :: [saViewer]) =
      ((createAccountsPass2 noopClient "poolA" "proj1" [saViewer]).1,
       (createAccountsPass2 noopClient "poolA" "proj1" [saUnknown]).2.1 ++
         (createAccountsPass2 noopClient "poolA" "proj1" [saViewer]).2.1,
       (createAccountsPass2 noopClient "poolA" "proj1" [saUnknown]).2.2 ++
         (createAccountsPass2 noopClient "poolA" "proj1" [saViewer]).2.2) := by
  have h := claim_C6 noopClient
  refine ⟨(h.1 "sa9" "proj1" "sa9" [customRole]).2, ?_, ?_, ?_⟩
  · exact h.2.1 "sa9" "proj1" "sa9" [customRole] customRole (by simp) rfl rfl
  · exact h.2.2.1 saUnknown "poolA" "proj1" (by decide) (by decide)
  · exact h.2.2.2 saUnknown [saViewer] "poolA" "proj1" rfl

/-- C7: the provisioning entry point runs pool → provider → service accounts
in that fixed order and stops at the first failing step: a pool-step error
ends the command with that error and a cloud trace consisting of pool-API
calls only (the provider and service-account APIs are never called); a
provider-step error leaves only pool and provider calls (no service-account
call); when both earlier steps succeed the trace is the ordered concatenation
of the three steps' calls. -/
theorem claim_C7 (ocmClient : OcmClient) (gcpClient : GcpClient) (opts : options)
    (wifConfig : WifConfigOutput)
    (hocm : ocmClient.CreateWifConfig { DisplayName := opts.Name, ProjectId := opts.Project } =
      .ok wifConfig) :
    (∀ e, (createWorkloadIdentityPool gcpClient (poolSpecOf wifConfig) opts.DryRun).outcome =
        .goError e →
      createWorkloadIdentityConfigurationCmd ocmClient gcpClient opts =
        { result := .fatalError e,
          ocmCalls := [.createWifConfig { DisplayName := opts.Name, ProjectId := opts.Project }],
          cloudCalls := (createWorkloadIdentityPool gcpClient (poolSpecOf wifConfig)
            opts.DryRun).calls } ∧
      ((createWorkloadIdentityPool gcpClient (poolSpecOf wifConfig) opts.DryRun).calls.all
        (fun c => !isProviderApiCall c && !isServiceAccountApiCall c)) = true) ∧
    (∀ e, (createWorkloadIdentityPool gcpClient (poolSpecOf wifConfig) opts.DryRun).outcome =
        .ok →
      (createWorkloadIdentityProvider gcpClient (poolSpecOf wifConfig) opts.DryRun).outcome =
        .goError e →
      createWorkloadIdentityConfigurationCmd ocmClient gcpClient opts =
        { result := .fatalError e,
          ocmCalls := [.createWifConfig { DisplayName := opts.Name, ProjectId := opts.Project }],
          cloudCalls :=
            (createWorkloadIdentityPool gcpClient (poolSpecOf wifConfig) opts.DryRun).calls ++
            (createWorkloadIdentityProvider gcpClient (poolSpecOf wifConfig)
              opts.DryRun).calls } ∧
      (((createWorkloadIdentityPool gcpClient (poolSpecOf wifConfig) opts.DryRun).calls ++
        (createWorkloadIdentityProvider gcpClient (poolSpecOf wifConfig) opts.DryRun).calls).all
          (fun c => !isServiceAccountApiCall c)) = true) ∧
    ((createWorkloadIdentityPool gcpClient (poolSpecOf wifConfig) opts.DryRun).outcome = .ok →
      (createWorkloadIdentityProvider gcpClient (poolSpecOf wifConfig) opts.DryRun).outcome =
        .ok →
      (createWorkloadIdentityConfigurationCmd ocmClient gcpClient opts).cloudCalls =
        (createWorkloadIdentityPool gcpClient (poolSpecOf wifConfig) opts.DryRun).calls ++
        (createWorkloadIdentityProvider gcpClient (poolSpecOf wifConfig) opts.DryRun).calls ++
        (createServiceAccounts gcpClient wifConfig opts.DryRun).calls) := by
  refine ⟨?_, ?_, ?_⟩
  · intro e hpool
    constructor
    · simp [createWorkloadIdentityConfigurationCmd, createWorkloadIdentityConfiguration,
        hocm, hpool]
    · have h1 := createWorkloadIdentityPool_calls_poolApi gcpClient (poolSpecOf wifConfig)
        opts.DryRun
      rw [List.all_eq_true] at h1 ⊢
      intro c hc
      have hcp := h1 c hc
      simp [poolApi_not_providerApi c (by simpa using hcp),
        poolApi_not_serviceAccountApi c (by simpa using hcp)]
  · intro e hpool hprov
    constructor
    · simp [createWorkloadIdentityConfigurationCmd, createWorkloadIdentityConfiguration,
        hocm, hpool, hprov]
    · have h1 := createWorkloadIdentityPool_calls_poolApi gcpClient (poolSpecOf wifConfig)
        opts.DryRun
      have h2 := createWorkloadIdentityProvider_calls_providerApi gcpClient
        (poolSpecOf wifConfig) opts.DryRun
      rw [List.all_eq_true] at h1 h2
      rw [List.all_eq_true]
      intro c hc
      rcases List.mem_append.mp hc with hc1 | hc2
      · simp [poolApi_not_serviceAccountApi c (by simpa using h1 c hc1)]
      · simp [providerApi_not_serviceAccountApi c (by simpa using h2 c hc2)]
  · intro hpool hprov
    cases hsa : (createServiceAccounts gcpClient wifConfig opts.DryRun).outcome with
    | ok =>
      simp [createWorkloadIdentityConfigurationCmd, createWorkloadIdentityConfiguration,
        hocm, hpool, hprov, hsa]
    | goError e =>
      simp [createWorkloadIdentityConfigurationCmd, createWorkloadIdentityConfiguration,
        hocm, hpool, hprov, hsa]
    | panicked e =>
      simp [createWorkloadIdentityConfigurationCmd, createWorkloadIdentityConfiguration,
        hocm, hpool, hprov, hsa]

/-- Witness for C7: a permission-denied pool probe stops the command at the
pool step; the trace holds the single pool read and nothing from the provider
or service-account APIs. -/
theorem claim_C7_witness :
    createWorkloadIdentityConfigurationCmd (okOcmClient wifOneAccount) poolProbeFailClient
      { Name := "n", Project := "p", TargetDir := "", DryRun := false } =
      { result := .fatalError (.otherErr "permission denied"),
        ocmCalls := [.createWifConfig { DisplayName := "n", ProjectId := "p" }],
        cloudCalls := (createWorkloadIdentityPool poolProbeFailClient
          (poolSpecOf wifOneAccount) false).calls } ∧
    ((createWorkloadIdentityPool poolProbeFailClient (poolSpecOf wifOneAccount) false).calls.all
      (fun c => !isProviderApiCall c && !isServiceAccountApiCall c)) = true := by
  have h := claim_C7 (okOcmClient wifOneAccount) poolProbeFailClient
    { Name := "n", Project := "p", TargetDir := "", DryRun := false } wifOneAccount rfl
  exact h.1 (.otherErr "permission denied") (by decide)

/-- C10: the provisioning command issues the backend createWifConfig call on
every run — dry-run included — before reconciliation, and dry-run suppresses
only the cloud IAM calls (the cloud trace is empty while the backend call is
still made). -/
theorem claim_C10 (ocmClient : OcmClient) (gcpClient : GcpClient) (opts : options) :
    (createWorkloadIdentityConfigurationCmd ocmClient gcpClient opts).ocmCalls =
      [.createWifConfig { DisplayName := opts.Name, ProjectId := opts.Project }] ∧
    (opts.DryRun = true →
      (createWorkloadIdentityConfigurationCmd ocmClient gcpClient opts).cloudCalls = []) := by
  cases hocm : ocmClient.CreateWifConfig { DisplayName := opts.Name, ProjectId := opts.Project }
    with
  | error e =>
    constructor
    · simp [createWorkloadIdentityConfigurationCmd, createWorkloadIdentityConfiguration, hocm]
    · intro hdry
      simp [createWorkloadIdentityConfigurationCmd, createWorkloadIdentityConfiguration, hocm]
  | ok wifConfig =>
    constructor
    · simp only [createWorkloadIdentityConfigurationCmd,
        createWorkloadIdentityConfiguration, hocm]
      repeat' split
      all_goals rfl
    · intro hdry
      simp [createWorkloadIdentityConfigurationCmd, createWorkloadIdentityConfiguration,
        hocm, hdry, createWorkloadIdentityPool, createWorkloadIdentityProvider,
        createServiceAccounts]

/-- Witness for C10: a dry run still issues exactly the backend create call
while making zero cloud calls. -/
theorem claim_C10_witness :
    (createWorkloadIdentityConfigurationCmd (okOcmClient wifOneAccount) noopClient
      { Name := "n", Project := "p", TargetDir := "", DryRun := true }).ocmCalls =
      [.createWifConfig { DisplayName := "n", ProjectId := "p" }] ∧
    (createWorkloadIdentityConfigurationCmd (okOcmClient wifOneAccount) noopClient
      { Name := "n", Project := "p", TargetDir := "", DryRun := true }).cloudCalls = [] := by
  have h := claim_C10 (okOcmClient wifOneAccount) noopClient
    { Name := "n", Project := "p", TargetDir := "", DryRun := true }
  exact ⟨h.1, h.2 rfl⟩

/-! ## String lemmas for the lookup-error messages -/

theorem strDataAppend (s t : String) : (s ++ t).data = s.data ++ t.data := by
  cases s
  cases t
  rfl

theorem isLeadingSegment_self_append (l post : List Char) :
    isLeadingSegment l (l ++ post) = true := by
  induction l with
  | nil => rfl
  | cons c cs ih => simp [isLeadingSegment, ih]

theorem containsAux_nil_sub (l : List Char) : containsAux [] l = true := by
  cases l <;> simp [containsAux, isLeadingSegment]

theorem containsAux_append (sub pre post : List Char) :
    containsAux sub (pre ++ (sub ++ post)) = true := by
  induction pre with
  | nil =>
    cases sub with
    | nil => simpa using containsAux_nil_sub post
    | cons a as =>
      have hseg := isLeadingSegment_self_append (a :: as) post
      simp only [List.cons_append] at hseg
      simp [containsAux, List.append_eq, hseg]
  | cons c cs ih =>
    simp [containsAux, ih]

/-- The several-matches message reports the match count verbatim. -/
theorem ambiguousLookupMsg_contains_total (total : Nat) (key : String) :
    stringsContains (ambiguousLookupMsg total key) (toString total) = true := by
  unfold stringsContains ambiguousLookupMsg
  rw [strDataAppend, strDataAppend, strDataAppend, strDataAppend]
  rw [List.append_assoc, List.append_assoc, List.append_assoc]
  exact containsAux_append _ _ _

/-- The several-matches message differs from the zero-matches message, for
every key and every count. -/
theorem ambiguousLookupMsg_ne_notFoundLookupMsg (total : Nat) (key : String) :
    ambiguousLookupMsg total key ≠ notFoundLookupMsg key := by
  intro h
  have h2 : (some 't' : Option Char) = some 'W' :=
    congrArg (fun s : String => s.data.head?) h
  exact absurd h2 (by decide)

/-- C9: findWifConfig fails with the not-found error when zero configurations
match, fails with a distinct error reporting the match count when several
match (it never picks the first of several), returns a configuration only
when the reported total is exactly one, and whenever it errors the update
command issues no update call. -/
theorem claim_C9 (client : CmClient) (key : String) (resp : WifListResponse)
    (hsend : client.ListWifConfigs (findQuery key) 1 1 = .ok resp) :
    (resp.Total = 0 →
      findWifConfig client key =
        (.errRes (.otherErr (notFoundLookupMsg key)),
          [.listWifConfigs (findQuery key) 1 1]) ∧
      ∀ templates,
        ((updateWorkloadIdentityConfigurationCmd client templates key).2).filter
          isUpdateCall = []) ∧
    (1 < resp.Total →
      findWifConfig client key =
        (.errRes (.otherErr (ambiguousLookupMsg resp.Total key)),
          [.listWifConfigs (findQuery key) 1 1]) ∧
      stringsContains (ambiguousLookupMsg resp.Total key) (toString resp.Total) = true ∧
      ambiguousLookupMsg resp.Total key ≠ notFoundLookupMsg key ∧
      ∀ templates,
        ((updateWorkloadIdentityConfigurationCmd client templates key).2).filter
          isUpdateCall = []) ∧
    (∀ cfg, (findWifConfig client key).1 = .ok cfg →
      resp.Total = 1 ∧ resp.Items.head? = some cfg) := by
  refine ⟨?_, ?_, ?_⟩
  · intro h0
    have hf : findWifConfig client key =
        (.errRes (.otherErr (notFoundLookupMsg key)),
          [.listWifConfigs (findQuery key) 1 1]) := by
      simp [findWifConfig, hsend, h0]
    refine ⟨hf, fun templates => ?_⟩
    simp [updateWorkloadIdentityConfigurationCmd, hf, isUpdateCall, List.filter]
  · intro h1
    have h0 : (resp.Total == 0) = false := by
      simp only [beq_eq_false_iff_ne, ne_eq]
      omega
    have hf : findWifConfig client key =
        (.errRes (.otherErr (ambiguousLookupMsg resp.Total key)),
          [.listWifConfigs (findQuery key) 1 1]) := by
      simp [findWifConfig, hsend, h0, h1]
    refine ⟨hf, ambiguousLookupMsg_contains_total resp.Total key,
      ambiguousLookupMsg_ne_notFoundLookupMsg resp.Total key, fun templates => ?_⟩
    simp [updateWorkloadIdentityConfigurationCmd, hf, isUpdateCall, List.filter]
  · intro cfg hok
    by_cases h0 : resp.Total = 0
    · exfalso
      simp [findWifConfig, hsend, h0] at hok
    by_cases h1 : 1 < resp.Total
    · exfalso
      have h0' : (resp.Total == 0) = false := by
        simp only [beq_eq_false_iff_ne, ne_eq]
        omega
      simp [findWifConfig, hsend, h0', h1] at hok
    have htot : resp.Total = 1 := by omega
    refine ⟨htot, ?_⟩
    cases hi : resp.Items with
    | nil =>
      exfalso
      simp [findWifConfig, hsend, htot, hi] at hok
    | cons c tail =>
      have : cfg = c := by
        have := hok
        simp [findWifConfig, hsend, htot, hi] at this
        exact this.symm
      rw [this]
      rfl

/-- Witness for C9: a key matching two configurations yields the ambiguous
error (naming the count 2, distinct from the not-found error) and the update
command performs no update call. -/
theorem claim_C9_witness :
    findWifConfig twoMatchesCmClient "k" =
      (.errRes (.otherErr (ambiguousLookupMsg 2 "k")),
        [.listWifConfigs (findQuery "k") 1 1]) ∧
    stringsContains (ambiguousLookupMsg 2 "k") (toString 2) = true ∧
    ambiguousLookupMsg 2 "k" ≠ notFoundLookupMsg "k" ∧
    ((updateWorkloadIdentityConfigurationCmd twoMatchesCmClient [] "k").2).filter
      isUpdateCall = [] := by
  have h := (claim_C9 twoMatchesCmClient "k" { Total := 2, Items := [{ ID := "a" }] }
    rfl).2.1 (by decide)
  exact ⟨h.1, h.2.1, h.2.2.1, h.2.2.2 []⟩

end Spec2Proof
